import Mathlib

/-!
Shallow embedding of the VioletteStores e-commerce backend
(`shop/models.py`, `shop/views.py`, `core/serializers.py`, `core/views.py`).

The relational store is modelled as lists of rows; request handlers become
pure functions from a store (plus request parameters) to a response and an
updated store.  Decimal money fields (`max_digits=10, decimal_places=2`) are
modelled exactly as integer cents; the fixed tax `Decimal('4.00')` is 400
cents.  The outbound HTTP calls to the payment gateway are modelled by
explicit parameters: the verification endpoint as a function from the
transaction id to the parsed JSON body, and the payment-creation call as a
`GatewayOutcome` describing what the network returned.
-/

namespace VioletteStores

/-! ### `django.utils.text.slugify` (external collaborator), ASCII fragment

`slugify(value)` lower-cases, removes characters outside `[\w\s-]`,
collapses runs of whitespace and hyphens to a single hyphen, and strips
leading/trailing hyphens and underscores. -/

def isSlugKeep (c : Char) : Bool :=
  c.isAlphanum || c == '_' || c == '-' || c.isWhitespace

/-- Collapse runs of whitespace/hyphens into single hyphens
(`re.sub(r"[-\s]+", "-", value)`); the flag records whether the previous
kept character was part of such a run. -/
def collapseDashes : Bool → List Char → List Char
  | _, [] => []
  | prevDash, c :: rest =>
    if c == '-' || c.isWhitespace then
      if prevDash then collapseDashes true rest
      else '-' :: collapseDashes true rest
    else c :: collapseDashes false rest

def isStripChar (c : Char) : Bool :=
  c == '-' || c == '_'

/-- Python `.strip("-_")` on a character list. -/
def stripEnds (cs : List Char) : List Char :=
  ((cs.dropWhile isStripChar).reverse.dropWhile isStripChar).reverse

def slugify (s : String) : String :=
  let lowered := s.data.map Char.toLower
  let kept := lowered.filter isSlugKeep
  ⟨stripEnds (collapseDashes false kept)⟩

/-! ### Data model (`shop/models.py`, `core/models.py`) -/

/-- Model of `Category`: name, slug (image/description/timestamps omitted as inert). -/
structure Category where
  id : Nat
  name : String
  slug : String
deriving Repr, DecidableEq

/-- Model of `Product`: category FK, name, slug, price in cents. -/
structure Product where
  id : Nat
  categoryId : Nat
  name : String
  slug : String
  price : Int
deriving Repr, DecidableEq

/-- Model of `Cart`: unique `cart_code`, nullable user FK, `paid` flag. -/
structure Cart where
  id : Nat
  cart_code : String
  userId : Option Nat
  paid : Bool
deriving Repr, DecidableEq

/-- Model of `CartItem`: cart FK, product FK, integer quantity (default 1). -/
structure CartItem where
  id : Nat
  cartId : Nat
  productId : Nat
  quantity : Int
deriving Repr, DecidableEq

/-- Model of `Transaction`: unique `ref`, cart FK, amount in cents, currency,
status string, nullable user FK. -/
structure Transaction where
  ref : String
  cartId : Nat
  amount : Int
  currency : String
  status : String
  userId : Option Nat
deriving Repr, DecidableEq

/-- Model of `CustomUser`: username, email, hashed password, profile fields. -/
structure User where
  id : Nat
  username : String
  email : String
  passwordHash : String
  first_name : String
  last_name : String
  city : String
  state : String
  address : String
  phone : String
deriving Repr, DecidableEq

/-- The relational store: one list of rows per table, plus the
auto-increment counters the database keeps per table. -/
structure Store where
  categories : List Category
  products : List Product
  carts : List Cart
  cartItems : List CartItem
  transactions : List Transaction
  users : List User
  nextCategoryId : Nat
  nextProductId : Nat
  nextCartId : Nat
  nextCartItemId : Nat
  nextUserId : Nat
deriving Repr, DecidableEq

/-! ### Slug derivation (`Category.save` / `Product.save`)

Both save methods run
`slug = base_slug; counter = 1;
 while Product.objects.filter(slug=slug).exists():
   slug = f"{base_slug}-{counter}"; counter += 1`.
The loop is embedded with fuel `|slugs| + 1`: the candidates
`base, base-1, base-2, …` are pairwise distinct strings, so at most
`|slugs|` of them can be occupied and the fuel is never exhausted before a
free candidate is found. -/

def slugLoop (slugs : List String) (base : String) : String → Nat → Nat → String
  | slug, _, 0 => slug
  | slug, counter, fuel + 1 =>
    if slugs.contains slug then
      slugLoop slugs base (base ++ "-" ++ toString counter) (counter + 1) fuel
    else slug

def uniqueSlug (slugs : List String) (base : String) : String :=
  slugLoop slugs base base 1 (slugs.length + 1)

/-- The candidate sequence tried by the collision loop: `base`,
`base-1`, `base-2`, … -/
def slugCandidate (base : String) : Nat → String
  | 0 => base
  | k + 1 => base ++ "-" ++ toString (k + 1)

/-- Decimal value of a digit character, left inverse of `Nat.digitChar` on
digits; used to prove the decimal printer injective. -/
def digitVal (c : Char) : Nat := c.toNat - '0'.toNat

def digitsVal (l : List Char) : Nat := l.foldl (fun a c => 10 * a + digitVal c) 0

/-- An in-memory `Category` instance about to be saved: `id = none` means
no primary key yet (INSERT); `slug = ""` models an absent slug. -/
structure CategoryInstance where
  id : Option Nat
  name : String
  slug : String
deriving Repr, DecidableEq

/-- An in-memory `Product` instance about to be saved. -/
structure ProductInstance where
  id : Option Nat
  categoryId : Nat
  name : String
  slug : String
  price : Int
deriving Repr, DecidableEq

/-- Embeds `Category.save` (`shop/models.py` lines 63-82).  Note: the collision
scan queries `Product.objects`, not `Category.objects` — faithful to the
source. -/
def categorySave (st : Store) (c : CategoryInstance) : Store × Category :=
  let base_slug := if c.slug = "" then slugify c.name else slugify c.slug
  let slug := uniqueSlug (st.products.map Product.slug) base_slug
  match c.id with
  | none =>
    let row : Category := ⟨st.nextCategoryId, c.name, slug⟩
    ({ st with categories := st.categories ++ [row],
               nextCategoryId := st.nextCategoryId + 1 }, row)
  | some i =>
    let row : Category := ⟨i, c.name, slug⟩
    ({ st with categories :=
        st.categories.map (fun q => if q.id = i then row else q) }, row)

/-- Embeds `Product.save` (`shop/models.py` lines 144-163).  The collision scan
queries all `Product` rows — including, on an UPDATE, the row being saved
itself. -/
def productSave (st : Store) (p : ProductInstance) : Store × Product :=
  let base_slug := if p.slug = "" then slugify p.name else slugify p.slug
  let slug := uniqueSlug (st.products.map Product.slug) base_slug
  match p.id with
  | none =>
    let row : Product := ⟨st.nextProductId, p.categoryId, p.name, slug, p.price⟩
    ({ st with products := st.products ++ [row],
               nextProductId := st.nextProductId + 1 }, row)
  | some i =>
    let row : Product := ⟨i, p.categoryId, p.name, slug, p.price⟩
    ({ st with products :=
        st.products.map (fun q => if q.id = i then row else q) }, row)

/-- Iterated creation of same-named products (no explicit slug, no pk):
the store after `n` such saves. -/
def productSaveMany (st : Store) (name : String) (catId : Nat) (price : Int) :
    Nat → Store
  | 0 => st
  | n + 1 =>
    (productSave (productSaveMany st name catId price n)
      ⟨none, catId, name, "", price⟩).1

/-- Iterated creation of same-named categories (no explicit slug, no pk). -/
def categorySaveMany (st : Store) (name : String) : Nat → Store
  | 0 => st
  | n + 1 => (categorySave (categorySaveMany st name n) ⟨none, name, ""⟩).1

/-- Sanity check of the slugify embedding. -/
theorem slugify_check : slugify "  My -- Fancy Shoe!  " = "my-fancy-shoe" := by decide

/-- Sanity check of the collision loop. -/
theorem uniqueSlug_check : uniqueSlug ["shoes", "shoes-1"] "shoes" = "shoes-2" := by decide

/-! ### Cart API (`shop/views.py`) -/

/-- Embeds `Cart.objects.get_or_create(cart_code=cart_code)` (`shop/views.py`
line 94): resolves the cart by `cart_code` alone — no filter on `paid` —
and creates it with the field defaults `paid=False, user=None` when
absent. -/
def getOrCreateCart (st : Store) (cart_code : String) : Store × Cart :=
  match st.carts.find? (fun c => c.cart_code == cart_code) with
  | some cart => (st, cart)
  | none =>
    let cart : Cart := ⟨st.nextCartId, cart_code, none, false⟩
    ({ st with carts := st.carts ++ [cart],
               nextCartId := st.nextCartId + 1 }, cart)

/-- Embeds `add_item` (`shop/views.py` lines 65-119).  Looks up the product with
`get_object_or_404` (absence raises, caught by the broad `except` → 400
error, no writes), then `Cart.objects.get_or_create(cart_code=cart_code)`,
then `CartItem.objects.get_or_create(cart=cart, product=product)` and
finally overwrites `quantity` with 1 and saves.  Returns the saved item,
or `none` for the error response. -/
def add_item (st : Store) (cart_code : String) (product_id : Nat) :
    Store × Option CartItem :=
  match st.products.find? (fun p => p.id == product_id) with
  | none => (st, none)
  | some product =>
    match getOrCreateCart st cart_code with
    | (st1, cart) =>
    match st1.cartItems.find?
        (fun it => it.cartId == cart.id && it.productId == product.id) with
    | some it =>
      let it' := { it with quantity := 1 }
      ({ st1 with cartItems :=
          st1.cartItems.map (fun j => if j.id = it.id then it' else j) },
       some it')
    | none =>
      let it : CartItem := ⟨st1.nextCartItemId, cart.id, product.id, 1⟩
      ({ st1 with cartItems := st1.cartItems ++ [it],
                  nextCartItemId := st1.nextCartItemId + 1 }, some it)

/-- Response of `product_in_cart`: either the `{'product_exists': b}` body
or the `{'error': msg}` body produced by the broad `except Exception`. -/
inductive PicResp where
  | productExists (b : Bool)
  | errorResp (msg : String)
deriving Repr, DecidableEq

/-- Embeds `product_in_cart` (`shop/views.py` lines 121-154).  `get_object_or_404`
raises `Http404`, which the `except Cart.DoesNotExist` /
`except Product.DoesNotExist` clauses do NOT match; the broad
`except Exception` clause converts it to an `{'error': str(e)}` body (the
messages are Django's `Http404` texts).  Only when both rows exist does the
handler answer with the `product_exists` boolean. -/
def product_in_cart (st : Store) (cart_code : String) (product_id : Nat) :
    PicResp :=
  match st.carts.find? (fun c => c.cart_code == cart_code) with
  | none => .errorResp "No Cart matches the given query."
  | some cart =>
    match st.products.find? (fun p => p.id == product_id) with
    | none => .errorResp "No Product matches the given query."
    | some product =>
      .productExists (st.cartItems.any
        (fun it => it.cartId == cart.id && it.productId == product.id))

/-- Embeds `update_quantity` (`shop/views.py` lines 199-217).  `get_object_or_404`
on the item (absence → 404, no writes), then `quantity = int(quantity)` —
no lower bound — is written to the row. -/
def update_quantity (st : Store) (item_id : Nat) (quantity : Int) :
    Store × Option CartItem :=
  match st.cartItems.find? (fun it => it.id == item_id) with
  | none => (st, none)
  | some it =>
    let it' := { it with quantity := quantity }
    ({ st with cartItems :=
        st.cartItems.map (fun j => if j.id = item_id then it' else j) },
     some it')

/-- Embeds `delete_item` (`shop/views.py` lines 220-228): fetch-or-404 then
delete. -/
def delete_item (st : Store) (item_id : Nat) : Store × Bool :=
  match st.cartItems.find? (fun it => it.id == item_id) with
  | none => (st, false)
  | some _ =>
    ({ st with cartItems := st.cartItems.filter (fun it => it.id ≠ item_id) },
     true)

/-! ### Payment orchestrator (`shop/views.py`) -/

/-- Embeds `sum([item.quantity * item.product.price for item in cart.items.all()])`
(`shop/views.py` line 276).  The FK guarantees each item's product row
exists; the `none` branch is unreachable on FK-consistent stores. -/
def cartAmount (st : Store) (cartId : Nat) : Int :=
  (st.cartItems.filter (fun it => it.cartId == cartId)).foldl
    (fun acc it =>
      acc + it.quantity *
        (match st.products.find? (fun p => p.id == it.productId) with
         | some p => p.price
         | none => 0)) 0

/-- What the outbound `requests.post` to the gateway produced: an HTTP
response with some status code, or a `RequestException`. -/
inductive GatewayOutcome where
  | httpResp (code : Nat)
  | netError (msg : String)
deriving Repr, DecidableEq

/-- The payment-creation payload sent to the gateway (amount/currency/
tx_ref; customer fields omitted as inert). -/
structure GatewayPayload where
  tx_ref : String
  amount : Int
  currency : String
deriving Repr, DecidableEq

/-- Result of `initiate_payment`: the store after the handler, the payload
of the outbound request if one was issued, and the response —
`Except.error` models an uncaught exception propagating out of the view. -/
structure InitiateResult where
  store : Store
  payload : Option GatewayPayload
  resp : Except String (Nat × String)
deriving Repr

/-- Embeds `initiate_payment` (`shop/views.py` lines 254-342).
`Cart.objects.get(cart_code=cart_code)` has no `paid` filter and raises
`DoesNotExist` (uncaught: only `RequestException` is handled) when absent.
The amount is the item sum plus `Decimal('4.00')` tax (400 cents).  The
`Transaction` row (`ref=tx_ref, currency="NGN", status='pending'`) is
created before `requests.post`; a duplicate `ref` violates the unique
constraint (uncaught `IntegrityError`).  The gateway's response body is
passed through with its status code; a `RequestException` becomes a 500
`{'error': str(e)}` response — in both cases the created row stays. -/
def initiate_payment (st : Store) (cart_code : String) (userId : Nat)
    (tx_ref : String) (outcome : GatewayOutcome) : InitiateResult :=
  match st.carts.find? (fun c => c.cart_code == cart_code) with
  | none => ⟨st, none, .error "Cart matching query does not exist."⟩
  | some cart =>
    if (st.transactions.map Transaction.ref).contains tx_ref then
      ⟨st, none, .error "UNIQUE constraint failed: shop_transaction.ref"⟩
    else
      let total_amount := cartAmount st cart.id + 400
      let txn : Transaction :=
        ⟨tx_ref, cart.id, total_amount, "NGN", "pending", some userId⟩
      let st' := { st with transactions := st.transactions ++ [txn] }
      let payload : GatewayPayload := ⟨tx_ref, total_amount, "NGN"⟩
      match outcome with
      | .httpResp code => ⟨st', some payload, .ok (code, "gateway body")⟩
      | .netError msg => ⟨st', some payload, .ok (500, msg)⟩

/-- Parsed JSON body of the gateway's verification endpoint:
`data['status']`, `data['data']['status']`, `data['data']['amount']`
(cents), `data['data']['currency']`. -/
structure VerifyResp where
  status : String
  data_status : String
  data_amount : Int
  data_currency : String
deriving Repr, DecidableEq

/-- Result of `payment_callback`: the store after the handler, whether the
gateway verification endpoint was called, and the response. -/
structure CallbackResult where
  store : Store
  verifyCalled : Bool
  resp : Except String (Nat × String)
deriving Repr

/-- Embeds `payment_callback` (`shop/views.py` lines 345-433).  Proceeds only when
the `status` query parameter is the literal `"successful"`; then calls the
verification endpoint (`verify transaction_id`), and on
`response_data['status'] == 'success'` loads the transaction by `ref`
(absence raises `DoesNotExist`, uncaught).  The three checks are the
gateway sub-status, amount and currency; the source wraps the amount
comparison as `float(resp_amount == float(transaction.amount))`, whose
truthiness equals the equality itself for numeric JSON amounts, so it is
embedded as equality on exact cents.  All three true ⇒ transaction status
becomes `"completed"`, its cart gets `paid=True` and `user=request.user`.
Otherwise the store is untouched. -/
def payment_callback (st : Store) (statusParam tx_ref transaction_id : String)
    (userId : Option Nat) (verify : String → VerifyResp) : CallbackResult :=
  if statusParam = "successful" then
    if (verify transaction_id).status = "success" then
      match st.transactions.find? (fun t => t.ref == tx_ref) with
      | none => ⟨st, true, .error "Transaction matching query does not exist."⟩
      | some transaction =>
        if (verify transaction_id).data_status == "successful" &&
            (verify transaction_id).data_amount == transaction.amount &&
            (verify transaction_id).data_currency == transaction.currency then
          let txn' := { transaction with status := "completed" }
          let st1 := { st with
            transactions := st.transactions.map
              (fun (t : Transaction) => if t.ref = tx_ref then txn' else t) }
          let st2 := { st1 with
            carts := st1.carts.map (fun (c : Cart) =>
              if c.id = transaction.cartId then
                { c with paid := true, userId := userId }
              else c) }
          ⟨st2, true, .ok (200, "Payment Successful!")⟩
        else
          ⟨st, true, .ok (400, "Payment Verification Failed")⟩
    else
      ⟨st, true, .ok (400, "Failed to verify transaction with Flutterwave.")⟩
  else
    ⟨st, false, .ok (400, "Payment was not successful.")⟩

/-! ### Registration (`core/serializers.py`, `core/views.py`) -/

/-- The registration request body (`UserRegistrationSerializer` fields). -/
structure RegData where
  username : String
  email : String
  first_name : String
  last_name : String
  password : String
  password2 : String
  city : String
  state : String
  address : String
  phone : String
deriving Repr, DecidableEq

/-- Embeds `UserRegistrationSerializer.validate` (`core/serializers.py` lines
21-50).  Checks run in order: password confirmation, username taken, email
taken, then `validate_password` (the external strength policy, modelled as
`validatePassword : String → Option String` returning `some msg` on
rejection).  Each failure raises a `ValidationError` keyed by one field. -/
def validate (users : List User) (validatePassword : String → Option String)
    (data : RegData) : Except (String × String) RegData :=
  if data.password ≠ data.password2 then
    .error ("password", "Passwords do not match")
  else if users.any (fun u => u.username == data.username) then
    .error ("username", "Username already exists")
  else if users.any (fun u => u.email == data.email) then
    .error ("email", "Email already exists")
  else
    match validatePassword data.password with
    | some e => .error ("password", e)
    | none => .ok data

/-- Result of `register_user`: store, response
(`Except.error (field, msg)` is the 400 per-field error map), HTTP status. -/
structure RegisterResult where
  store : Store
  resp : Except (String × String) User
  httpStatus : Nat
deriving Repr

/-- Embeds `register_user` (`core/views.py` lines 9-21) with
`UserRegistrationSerializer.create`: on valid data, creates the user with
the hashed password (`set_password`, modelled by the `hash` parameter) —
201; on invalid data returns `serializer.errors` — 400, no writes. -/
def register_user (st : Store) (validatePassword : String → Option String)
    (hash : String → String) (data : RegData) : RegisterResult :=
  match validate st.users validatePassword data with
  | .error e => ⟨st, .error e, 400⟩
  | .ok d =>
    let u : User := ⟨st.nextUserId, d.username, d.email, hash d.password,
      d.first_name, d.last_name, d.city, d.state, d.address, d.phone⟩
    ⟨{ st with users := st.users ++ [u], nextUserId := st.nextUserId + 1 },
     .ok u, 201⟩

/-! ### The system step relation

One constructor per state-mutating request handler; used to state that the
verified callback path is the only transition completing a pending
transaction. -/

inductive Step : Store → Store → Prop where
  | addItem (st : Store) (code : String) (pid : Nat) :
      Step st (add_item st code pid).1
  | updateQty (st : Store) (item_id : Nat) (q : Int) :
      Step st (update_quantity st item_id q).1
  | deleteItem (st : Store) (item_id : Nat) :
      Step st (delete_item st item_id).1
  | catSave (st : Store) (c : CategoryInstance) :
      Step st (categorySave st c).1
  | prodSave (st : Store) (p : ProductInstance) :
      Step st (productSave st p).1
  | initiate (st : Store) (code : String) (uid : Nat) (tx_ref : String)
      (outcome : GatewayOutcome) :
      Step st (initiate_payment st code uid tx_ref outcome).store
  | callback (st : Store) (sp txr tid : String) (u : Option Nat)
      (v : String → VerifyResp) :
      Step st (payment_callback st sp txr tid u v).store
  | RegisterUser (st : Store) (vp : String → Option String)
      (hash : String → String) (d : RegData) :
      Step st (register_user st vp hash d).store

/-! ### Concrete fixtures used by counterexamples and witnesses -/

def emptyStore : Store := ⟨[], [], [], [], [], [], 1, 1, 1, 1, 1⟩

def wCategory : Category := ⟨1, "Sneakers", "sneakers"⟩

def wProduct : Product := ⟨1, 1, "Air Max", "air-max", 1000⟩

def wCart : Cart := ⟨1, "abc", none, false⟩

def wItem : CartItem := ⟨1, 1, 1, 2⟩

def wTxn : Transaction := ⟨"tx-1", 1, 2400, "NGN", "pending", some 5⟩

def wStore : Store :=
  ⟨[wCategory], [wProduct], [wCart], [wItem], [wTxn], [], 2, 2, 2, 2, 1⟩

def wVerifyGood : String → VerifyResp := fun _ => ⟨"success", "successful", 2400, "NGN"⟩

def wVerifyBad : String → VerifyResp := fun _ => ⟨"success", "failed", 2400, "NGN"⟩

/-! ### Frame lemmas: which tables each handler can touch -/

theorem getOrCreateCart_transactions (st : Store) (code : String) :
    (getOrCreateCart st code).1.transactions = st.transactions := by
  unfold getOrCreateCart
  split <;> rfl

theorem getOrCreateCart_cartItems (st : Store) (code : String) :
    (getOrCreateCart st code).1.cartItems = st.cartItems := by
  unfold getOrCreateCart
  split <;> rfl

theorem add_item_transactions (st : Store) (code : String) (pid : Nat) :
    (add_item st code pid).1.transactions = st.transactions := by
  have hg := getOrCreateCart_transactions st code
  unfold add_item
  split
  · rfl
  · rcases hgc : getOrCreateCart st code with ⟨st1, cart⟩
    rw [hgc] at hg
    simp only [hgc]
    split <;> exact hg

theorem update_quantity_transactions (st : Store) (item_id : Nat) (q : Int) :
    (update_quantity st item_id q).1.transactions = st.transactions := by
  unfold update_quantity
  split <;> rfl

theorem delete_item_transactions (st : Store) (item_id : Nat) :
    (delete_item st item_id).1.transactions = st.transactions := by
  unfold delete_item
  split <;> rfl

theorem categorySave_transactions (st : Store) (c : CategoryInstance) :
    (categorySave st c).1.transactions = st.transactions := by
  unfold categorySave
  split <;> split <;> rfl

theorem productSave_transactions (st : Store) (p : ProductInstance) :
    (productSave st p).1.transactions = st.transactions := by
  unfold productSave
  split <;> split <;> rfl

theorem register_user_transactions (st : Store) (vp : String → Option String)
    (hash : String → String) (d : RegData) :
    (register_user st vp hash d).store.transactions = st.transactions := by
  unfold register_user
  split <;> rfl

/-- Every transaction row after `initiate_payment` is either an old row or
the freshly created `pending` row whose `ref` was not in use. -/
theorem initiate_payment_transactions (st : Store) (code : String) (uid : Nat)
    (txr : String) (outcome : GatewayOutcome) :
    ∀ t' ∈ (initiate_payment st code uid txr outcome).store.transactions,
      t' ∈ st.transactions ∨
        (t'.status = "pending" ∧
         (st.transactions.map Transaction.ref).contains t'.ref = false) := by
  unfold initiate_payment
  split
  · exact fun t' h => .inl h
  · split
    · exact fun t' h => .inl h
    · next hfresh =>
      cases outcome <;>
        · intro t' h
          simp only [List.mem_append, List.mem_singleton] at h
          rcases h with h | rfl
          · exact .inl h
          · exact .inr ⟨rfl, by simpa using hfresh⟩

/-- Branch analysis of `payment_callback`: either the store is untouched,
or the status parameter was `"successful"`, the gateway verification
reported success, the three checks passed for the transaction found by
`ref`, and the store received exactly the completed-transaction /
paid-cart update. -/
theorem payment_callback_store_cases (st : Store) (sp txr tid : String)
    (u : Option Nat) (v : String → VerifyResp) :
    (payment_callback st sp txr tid u v).store = st ∨
    ∃ t, st.transactions.find? (fun x => x.ref == txr) = some t ∧
      sp = "successful" ∧ (v tid).status = "success" ∧
      (v tid).data_status = "successful" ∧ (v tid).data_amount = t.amount ∧
      (v tid).data_currency = t.currency ∧
      (payment_callback st sp txr tid u v).store =
        { st with
          transactions := st.transactions.map
            (fun x => if x.ref = txr then { t with status := "completed" } else x),
          carts := st.carts.map (fun c =>
            if c.id = t.cartId then { c with paid := true, userId := u } else c) } := by
  unfold payment_callback
  split
  · next hsp =>
    split
    · next hvs =>
      split
      · exact .inl rfl
      · next t hfind =>
        split
        · next hchecks =>
          simp only [Bool.and_eq_true, beq_iff_eq] at hchecks
          exact .inr ⟨t, hfind, hsp, hvs, hchecks.1.1, hchecks.1.2, hchecks.2, rfl⟩
        · exact .inl rfl
    · exact .inl rfl
  · exact .inl rfl

/-- Rows of a duplicate-free `ref` column are determined by their `ref`. -/
theorem ref_inj (l : List Transaction) (hnd : (l.map Transaction.ref).Nodup)
    (a b : Transaction) (ha : a ∈ l) (hb : b ∈ l) (h : b.ref = a.ref) : b = a :=
  List.inj_on_of_nodup_map hnd hb ha h

/-- Across every request handler of the system, the only step that turns a
`pending` transaction into a `completed` one is a payment callback whose
status parameter is `"successful"`, whose gateway verification reports
success, and whose three checks (sub-status, amount, currency) pass for
that very transaction. -/
theorem pending_completed_only_callback (s s' : Store) (hstep : Step s s')
    (hnd : (s.transactions.map Transaction.ref).Nodup)
    (a : Transaction) (ha : a ∈ s.transactions) (hpend : a.status = "pending")
    (b : Transaction) (hb : b ∈ s'.transactions) (hr : b.ref = a.ref)
    (hcomp : b.status = "completed") :
    ∃ tid u v, (v tid).status = "success" ∧
      (v tid).data_status = "successful" ∧ (v tid).data_amount = a.amount ∧
      (v tid).data_currency = a.currency ∧
      s' = (payment_callback s "successful" a.ref tid u v).store := by
  have frame : b ∈ s.transactions → False := by
    intro hbl
    have hba : b = a := ref_inj s.transactions hnd a b ha hbl hr
    have hac : a.status = "completed" := hba ▸ hcomp
    rw [hpend] at hac
    exact absurd hac (by decide)
  cases hstep with
  | addItem code pid =>
    rw [add_item_transactions] at hb
    exact (frame hb).elim
  | updateQty item_id q =>
    rw [update_quantity_transactions] at hb
    exact (frame hb).elim
  | deleteItem item_id =>
    rw [delete_item_transactions] at hb
    exact (frame hb).elim
  | catSave c =>
    rw [categorySave_transactions] at hb
    exact (frame hb).elim
  | prodSave p =>
    rw [productSave_transactions] at hb
    exact (frame hb).elim
  | RegisterUser vp hash d =>
    rw [register_user_transactions] at hb
    exact (frame hb).elim
  | initiate code uid txr outcome =>
    rcases initiate_payment_transactions s code uid txr outcome b hb with h | ⟨hp, _⟩
    · exact (frame h).elim
    · rw [hcomp] at hp
      exact absurd hp (by decide)
  | callback sp txr tid u v =>
    rcases payment_callback_store_cases s sp txr tid u v with
      hsame | ⟨t, hfind, hsp, hvs, h1, h2, h3, hstore⟩
    · rw [hsame] at hb
      exact (frame hb).elim
    · rw [hstore] at hb
      rcases List.mem_map.mp hb with ⟨x, hx, hfx⟩
      by_cases hxr : x.ref = txr
      · rw [if_pos hxr] at hfx
        have htmem := List.mem_of_find?_eq_some hfind
        have htref : t.ref = txr := by simpa using List.find?_some hfind
        have hbref : b.ref = t.ref := by rw [← hfx]
        have hta : t = a := ref_inj s.transactions hnd a t ha htmem (by
          rw [← hbref, hr])
        have haref : txr = a.ref := by rw [← htref, hta]
        refine ⟨tid, u, v, hvs, h1, hta ▸ h2, hta ▸ h3, ?_⟩
        rw [hsp, haref]
      · rw [if_neg hxr] at hfx
        exact (frame (hfx ▸ hx)).elim

/-! ### Decimal representation and slug-suffix lemmas

`Nat.repr` (the `toString` used by the f-string suffixing) is injective:
the digit list it builds evaluates back to the number.  This makes the
candidate slugs `base, base-1, base-2, …` pairwise distinct, which drives
the universal suffix theorem for C5. -/

theorem digitVal_digitChar : ∀ m, m < 10 → digitVal (Nat.digitChar m) = m := by
  decide

theorem toDigitsCore_shift :
    ∀ (fuel n : Nat) (ds : List Char),
      Nat.toDigitsCore 10 fuel n ds = Nat.toDigitsCore 10 fuel n [] ++ ds := by
  intro fuel
  induction fuel with
  | zero => intro n ds; rfl
  | succ f ih =>
    intro n ds
    simp only [Nat.toDigitsCore]
    by_cases h : n / 10 = 0
    · simp [h]
    · rw [if_neg h, if_neg h, ih (n / 10) (Nat.digitChar (n % 10) :: ds),
        ih (n / 10) [Nat.digitChar (n % 10)]]
      simp

theorem toDigitsCore_val :
    ∀ (fuel n : Nat), n < fuel → digitsVal (Nat.toDigitsCore 10 fuel n []) = n := by
  intro fuel
  induction fuel with
  | zero => intro n h; omega
  | succ f ih =>
    intro n h
    simp only [Nat.toDigitsCore]
    by_cases h0 : n / 10 = 0
    · rw [if_pos h0]
      have hn : n < 10 := by omega
      simp only [digitsVal, List.foldl_cons, List.foldl_nil, Nat.mul_zero,
        Nat.zero_add, Nat.mod_eq_of_lt hn]
      exact digitVal_digitChar n hn
    · rw [if_neg h0, toDigitsCore_shift]
      have h10 : n / 10 < f := by omega
      show digitsVal (Nat.toDigitsCore 10 f (n / 10) [] ++ [Nat.digitChar (n % 10)]) = n
      unfold digitsVal
      rw [List.foldl_append]
      show 10 * digitsVal (Nat.toDigitsCore 10 f (n / 10) [])
          + digitVal (Nat.digitChar (n % 10)) = n
      rw [ih _ h10, digitVal_digitChar _ (Nat.mod_lt _ (by decide))]
      omega

theorem natToString_injective (m n : Nat) (h : toString m = toString n) :
    m = n := by
  have hd : Nat.toDigits 10 m = Nat.toDigits 10 n := by
    have hdata := congrArg String.data h
    simpa [toString, Nat.repr, List.asString] using hdata
  have h1 := toDigitsCore_val (m + 1) m (Nat.lt_succ_self m)
  have h2 := toDigitsCore_val (n + 1) n (Nat.lt_succ_self n)
  have hm : Nat.toDigitsCore 10 (m + 1) m [] = Nat.toDigits 10 m := rfl
  have hn : Nat.toDigitsCore 10 (n + 1) n [] = Nat.toDigits 10 n := rfl
  rw [hm, hd] at h1
  rw [hn] at h2
  omega

theorem slugCandidate_inj (base : String) :
    ∀ j k, slugCandidate base j = slugCandidate base k → j = k := by
  have hlen : ∀ t : String, base ≠ base ++ "-" ++ t := by
    intro t h
    have hl := congrArg (fun s : String => s.data.length) h
    simp [String.data_append] at hl
  intro j k h
  match j, k with
  | 0, 0 => rfl
  | 0, k + 1 => exact absurd h (hlen _)
  | j + 1, 0 => exact absurd h.symm (hlen _)
  | j + 1, k + 1 =>
    have hd := congrArg String.data h
    simp only [slugCandidate, String.data_append, List.append_assoc,
      List.append_cancel_left_eq] at hd
    have hts : toString (j + 1) = toString (k + 1) := by
      cases hs : toString (j + 1)
      cases ht : toString (k + 1)
      congr 1
      rw [hs, ht] at hd
      simpa using hd
    rw [natToString_injective _ _ hts]

/-- Running the collision loop from candidate `k`: it walks the occupied
candidates `k, k+1, …, n-1` and stops at the first free one. -/
theorem slugLoop_spec (S : List String) (base : String) :
    ∀ (fuel k n : Nat), k ≤ n → n ≤ k + fuel →
      (∀ j, k ≤ j → j < n → slugCandidate base j ∈ S) →
      slugCandidate base n ∉ S →
      slugLoop S base (slugCandidate base k) (k + 1) fuel
        = slugCandidate base n := by
  intro fuel
  induction fuel with
  | zero =>
    intro k n hkn hnk _ _
    have hkeq : k = n := by omega
    subst hkeq
    rfl
  | succ f ih =>
    intro k n hkn hnf hmem hnot
    by_cases hk : k = n
    · subst hk
      unfold slugLoop
      rw [if_neg (by simpa using hnot)]
    · have hklt : k < n := lt_of_le_of_ne hkn hk
      unfold slugLoop
      rw [if_pos (by simpa using hmem k le_rfl hklt)]
      have hc : base ++ "-" ++ toString (k + 1) = slugCandidate base (k + 1) := rfl
      rw [hc]
      exact ih (k + 1) n hklt (by omega) (fun j h1 h2 => hmem j (by omega) h2) hnot

/-- If candidates `0, …, n-1` are occupied and candidate `n` is free (and
the fuel `|S| + 1` suffices), the save methods' loop answers candidate
`n`. -/
theorem uniqueSlug_spec (S : List String) (base : String) (n : Nat)
    (hn : n ≤ S.length + 1)
    (hmem : ∀ j, j < n → slugCandidate base j ∈ S)
    (hnot : slugCandidate base n ∉ S) :
    uniqueSlug S base = slugCandidate base n := by
  have h := slugLoop_spec S base (S.length + 1) 0 n (Nat.zero_le n) (by omega)
    (fun j _ h2 => hmem j h2) hnot
  simpa [uniqueSlug, slugCandidate] using h

theorem uniqueSlug_of_not_mem (S : List String) (base : String)
    (h : base ∉ S) : uniqueSlug S base = base := by
  have hs := uniqueSlug_spec S base 0 (by omega) (by omega) h
  simpa [slugCandidate] using hs

theorem slugCandidate_not_mem_range (base : String) (n : Nat) :
    slugCandidate base n ∉ (List.range n).map (slugCandidate base) := by
  intro hmem
  rcases List.mem_map.mp hmem with ⟨j, hj, hje⟩
  have hjn := slugCandidate_inj base j n hje
  rw [List.mem_range] at hj
  omega

/-- Inserting a fresh same-named product appends one row whose slug the
collision loop computed over the current Product slugs. -/
theorem productSave_insert (st : Store) (catId : Nat) (name : String)
    (price : Int) :
    (productSave st ⟨none, catId, name, "", price⟩).1.products
        = st.products ++
          [⟨st.nextProductId, catId, name,
            uniqueSlug (st.products.map Product.slug) (slugify name), price⟩] ∧
    (productSave st ⟨none, catId, name, "", price⟩).2.slug
        = uniqueSlug (st.products.map Product.slug) (slugify name) := by
  constructor <;> simp [productSave]

/-- Saving a fresh category computes its slug over the PRODUCT slugs. -/
theorem categorySave_slug (st : Store) (name : String) :
    (categorySave st ⟨none, name, ""⟩).2.slug
        = uniqueSlug (st.products.map Product.slug) (slugify name) := by
  simp [categorySave]

theorem categorySave_products (st : Store) (c : CategoryInstance) :
    (categorySave st c).1.products = st.products := by
  unfold categorySave
  split <;> split <;> rfl

theorem categorySaveMany_products (st : Store) (name : String) :
    ∀ n, (categorySaveMany st name n).products = st.products := by
  intro n
  induction n with
  | zero => rfl
  | succ m ih =>
    show (categorySave (categorySaveMany st name m) ⟨none, name, ""⟩).1.products
        = st.products
    rw [categorySave_products, ih]

/-- After `n` same-named product creations the Product slug column is the
original column followed by the first `n` candidates in order. -/
theorem productSaveMany_slugs (st : Store) (name : String) (catId : Nat)
    (price : Int)
    (hfree : ∀ j, slugCandidate (slugify name) j ∉ st.products.map Product.slug) :
    ∀ n, (productSaveMany st name catId price n).products.map Product.slug
        = st.products.map Product.slug
          ++ (List.range n).map (slugCandidate (slugify name)) := by
  intro n
  induction n with
  | zero => simp [productSaveMany]
  | succ m ih =>
    show ((productSave (productSaveMany st name catId price m)
        ⟨none, catId, name, "", price⟩).1.products.map Product.slug) = _
    rw [(productSave_insert (productSaveMany st name catId price m)
        catId name price).1]
    rw [List.map_append, ih]
    have hm : uniqueSlug (st.products.map Product.slug
        ++ (List.range m).map (slugCandidate (slugify name))) (slugify name)
        = slugCandidate (slugify name) m := by
      refine uniqueSlug_spec _ _ m (by simp; omega) ?_ ?_
      · intro j hj
        exact List.mem_append_right _ (List.mem_map.mpr ⟨j, List.mem_range.mpr hj, rfl⟩)
      · intro hmem
        rcases List.mem_append.mp hmem with hmem | hmem
        · exact hfree m hmem
        · exact slugCandidate_not_mem_range _ m hmem
    simp [hm, List.range_succ]

/-! ### Claims -/

/-- C1: for every payment callback in which the gateway verification call
reports success and all three checks pass (gateway sub-status
`"successful"`, reported amount equal to the stored `Transaction.amount`,
reported currency equal to the stored `Transaction.currency`), the handler
sets that transaction's status to `"completed"`, sets its cart's `paid`
flag to true and sets the cart's user to the request's current user; and,
across every request handler of the system, this verified-callback path is
the only step moving a transaction from `"pending"` to `"completed"`. -/
theorem C1_verified_callback_completes (st : Store) (txr tid : String)
    (u : Option Nat) (v : String → VerifyResp) (t : Transaction)
    (hfind : st.transactions.find? (fun x => x.ref == txr) = some t)
    (hs : (v tid).status = "success")
    (h1 : (v tid).data_status = "successful")
    (h2 : (v tid).data_amount = t.amount)
    (h3 : (v tid).data_currency = t.currency) :
    ((payment_callback st "successful" txr tid u v).store.transactions
        = st.transactions.map
            (fun x => if x.ref = txr then { t with status := "completed" } else x) ∧
     (payment_callback st "successful" txr tid u v).store.carts
        = st.carts.map (fun c =>
            if c.id = t.cartId then { c with paid := true, userId := u } else c) ∧
     (payment_callback st "successful" txr tid u v).resp
        = .ok (200, "Payment Successful!")) ∧
    (∀ s s', Step s s' → (s.transactions.map Transaction.ref).Nodup →
      ∀ a ∈ s.transactions, a.status = "pending" →
        ∀ b ∈ s'.transactions, b.ref = a.ref → b.status = "completed" →
          ∃ tid' u' v', (v' tid').status = "success" ∧
            (v' tid').data_status = "successful" ∧
            (v' tid').data_amount = a.amount ∧
            (v' tid').data_currency = a.currency ∧
            s' = (payment_callback s "successful" a.ref tid' u' v').store) := by
  constructor
  · refine ⟨?_, ?_, ?_⟩ <;> simp [payment_callback, hfind, hs, h1, h2, h3]
  · exact fun s s' hstep hnd a ha hp b hb hr hc =>
      pending_completed_only_callback s s' hstep hnd a ha hp b hb hr hc

/-- Witness for C1: the success-path effects at a concrete verified
callback on `wStore`. -/
theorem C1_witness :
    (payment_callback wStore "successful" "tx-1" "42" (some 5) wVerifyGood).store.transactions
        = wStore.transactions.map
            (fun x => if x.ref = "tx-1" then { wTxn with status := "completed" } else x) ∧
    (payment_callback wStore "successful" "tx-1" "42" (some 5) wVerifyGood).store.carts
        = wStore.carts.map (fun c =>
            if c.id = wTxn.cartId then { c with paid := true, userId := some 5 } else c) ∧
    (payment_callback wStore "successful" "tx-1" "42" (some 5) wVerifyGood).resp
        = .ok (200, "Payment Successful!") :=
  (C1_verified_callback_completes wStore "tx-1" "42" (some 5) wVerifyGood wTxn
    (by decide) (by decide) (by decide) (by decide) (by decide)).1

/-- C2: when the gateway verification call succeeds but the three checks
do not all hold, the callback answers 400 "Payment Verification Failed"
and performs no state mutation at all (so a pending transaction stays
pending and an unpaid cart stays unpaid). -/
theorem C2_failed_checks_leave_store (st : Store) (txr tid : String)
    (u : Option Nat) (v : String → VerifyResp) (t : Transaction)
    (hfind : st.transactions.find? (fun x => x.ref == txr) = some t)
    (hs : (v tid).status = "success")
    (hfail : ¬((v tid).data_status = "successful" ∧
               (v tid).data_amount = t.amount ∧
               (v tid).data_currency = t.currency)) :
    (payment_callback st "successful" txr tid u v).store = st ∧
    (payment_callback st "successful" txr tid u v).resp
        = .ok (400, "Payment Verification Failed") := by
  have hb : ((v tid).data_status == "successful" &&
      (v tid).data_amount == t.amount &&
      (v tid).data_currency == t.currency) = false := by
    rw [Bool.eq_false_iff]
    intro hcon
    simp only [Bool.and_eq_true, beq_iff_eq] at hcon
    exact hfail ⟨hcon.1.1, hcon.1.2, hcon.2⟩
  constructor <;> simp [payment_callback, hfind, hs, hb]

/-- Witness for C2: a concrete callback whose gateway sub-status is
`"failed"` leaves `wStore` (pending transaction, unpaid cart) untouched. -/
theorem C2_witness :
    (payment_callback wStore "successful" "tx-1" "42" (some 5) wVerifyBad).store = wStore ∧
    (payment_callback wStore "successful" "tx-1" "42" (some 5) wVerifyBad).resp
        = .ok (400, "Payment Verification Failed") :=
  C2_failed_checks_leave_store wStore "tx-1" "42" (some 5) wVerifyBad wTxn
    (by decide) (by decide) (by decide)

/-- C3: a callback whose reported status parameter is not the literal
`"successful"` immediately answers with a failure message, leaves the
whole store (every Transaction and Cart row) unchanged, and never calls
the gateway verification endpoint — its result does not even depend on
what the verification endpoint would have answered. -/
theorem C3_not_successful_no_effect (st : Store) (sp txr tid : String)
    (u : Option Nat) (v : String → VerifyResp) (h : sp ≠ "successful") :
    (payment_callback st sp txr tid u v).store = st ∧
    (payment_callback st sp txr tid u v).verifyCalled = false ∧
    (payment_callback st sp txr tid u v).resp
        = .ok (400, "Payment was not successful.") ∧
    ∀ v' : String → VerifyResp,
      payment_callback st sp txr tid u v' = payment_callback st sp txr tid u v := by
  refine ⟨?_, ?_, ?_, ?_⟩ <;> simp [payment_callback, h]

/-- Witness for C3 at a concrete callback with status `"cancelled"`. -/
theorem C3_witness :
    (payment_callback wStore "cancelled" "tx-1" "42" none wVerifyGood).store = wStore ∧
    (payment_callback wStore "cancelled" "tx-1" "42" none wVerifyGood).verifyCalled = false ∧
    (payment_callback wStore "cancelled" "tx-1" "42" none wVerifyGood).resp
        = .ok (400, "Payment was not successful.") ∧
    ∀ v' : String → VerifyResp,
      payment_callback wStore "cancelled" "tx-1" "42" none v'
        = payment_callback wStore "cancelled" "tx-1" "42" none wVerifyGood :=
  C3_not_successful_no_effect wStore "cancelled" "tx-1" "42" none wVerifyGood (by decide)

/-- C4 (code bug): re-saving an already-persisted product without changing
its name or slug CHANGES its slug.  `Product.save` scans
`Product.objects.filter(slug=slug)` without excluding the row being saved,
so the product's own row forces the next suffix: the sole product with
slug `"shoe"`, saved again unchanged, ends with slug `"shoe-1"`. -/
theorem C4_resave_changes_slug :
    (productSave
        ⟨[wCategory], [⟨1, 1, "Shoe", "shoe", 1000⟩], [], [], [], [], 2, 2, 1, 1, 1⟩
        ⟨some 1, 1, "Shoe", "shoe", 1000⟩).2.slug = "shoe-1" ∧
    (productSave
        ⟨[wCategory], [⟨1, 1, "Shoe", "shoe", 1000⟩], [], [], [], [], 2, 2, 1, 1, 1⟩
        ⟨some 1, 1, "Shoe", "shoe", 1000⟩).1.products
      = [⟨1, 1, "Shoe", "shoe-1", 1000⟩] := by decide

/-- C5 counterexample: creating two categories named `"Shoes"` (no
explicit slug) into the empty store yields slugs `"shoes"` and `"shoes"`,
not `"shoes"`, `"shoes-1"` as the claim states, because `Category.save`
scans Product slugs — not Category slugs — for collisions. -/
theorem C5_counterexample :
    (categorySave emptyStore ⟨none, "Shoes", ""⟩).2.slug = "shoes" ∧
    (categorySave (categorySave emptyStore ⟨none, "Shoes", ""⟩).1
        ⟨none, "Shoes", ""⟩).2.slug = "shoes" ∧
    (categorySave (categorySave emptyStore ⟨none, "Shoes", ""⟩).1
        ⟨none, "Shoes", ""⟩).2.slug ≠ "shoes-1" := by decide

/-- C5 amended, universally over the name and the creation count: the
(n+1)-th same-named product (no explicit slug) created into a store whose
product slugs contain none of the candidate slugs receives the slug
`slugify name` with suffix `-n` (bare for the first, `-1` for the second,
and so on — the N-th entity gets suffix `-(N-1)`); categories scan
Product slugs instead of Category slugs for collisions, so every category
in a run of same-named creations receives the bare slug whenever no
product row carries it. -/
theorem C5_amended_slug_suffixes (st st' : Store) (name name' : String)
    (catId : Nat) (price : Int)
    (hfree : ∀ j, slugCandidate (slugify name) j ∉ st.products.map Product.slug)
    (hp : slugify name' ∉ st'.products.map Product.slug) :
    (∀ n, (productSave (productSaveMany st name catId price n)
        ⟨none, catId, name, "", price⟩).2.slug
          = slugCandidate (slugify name) n) ∧
    (∀ n, (categorySave (categorySaveMany st' name' n)
        ⟨none, name', ""⟩).2.slug = slugify name') := by
  constructor
  · intro n
    rw [(productSave_insert (productSaveMany st name catId price n)
        catId name price).2]
    rw [productSaveMany_slugs st name catId price hfree n]
    refine uniqueSlug_spec _ _ n (by simp; omega) ?_ ?_
    · intro j hj
      exact List.mem_append_right _
        (List.mem_map.mpr ⟨j, List.mem_range.mpr hj, rfl⟩)
    · intro hmem
      rcases List.mem_append.mp hmem with hmem | hmem
      · exact hfree n hmem
      · exact slugCandidate_not_mem_range _ n hmem
  · intro n
    rw [categorySave_slug, categorySaveMany_products]
    exact uniqueSlug_of_not_mem _ _ hp

/-- Witness for C5 at name "Shoes" from the empty store, together with the
concrete values of the first three candidates. -/
theorem C5_witness :
    ((∀ n, (productSave (productSaveMany emptyStore "Shoes" 1 1000 n)
        ⟨none, 1, "Shoes", "", 1000⟩).2.slug
          = slugCandidate (slugify "Shoes") n) ∧
     (∀ n, (categorySave (categorySaveMany emptyStore "Shoes" n)
        ⟨none, "Shoes", ""⟩).2.slug = slugify "Shoes")) ∧
    slugCandidate (slugify "Shoes") 0 = "shoes" ∧
    slugCandidate (slugify "Shoes") 1 = "shoes-1" ∧
    slugCandidate (slugify "Shoes") 2 = "shoes-2" :=
  ⟨C5_amended_slug_suffixes emptyStore emptyStore "Shoes" "Shoes" 1 1000
      (fun j => by simp [emptyStore]) (by simp [emptyStore]),
   by decide, by decide, by decide⟩

/-- C6 amended: `initiate_payment` loads the cart by `cart_code` alone (no
`paid` filter) and — before the outbound gateway request is issued, hence
regardless of the gateway outcome, including a network failure — appends
exactly one Transaction row with amount equal to the item sum plus the fixed
400-cent tax, currency `"NGN"`, status `"pending"` and the freshly
generated unused reference. -/
theorem C6_initiate_creates_pending (st : Store) (code : String) (uid : Nat)
    (txr : String) (cart : Cart)
    (hc : st.carts.find? (fun c => c.cart_code == code) = some cart)
    (hfresh : (st.transactions.map Transaction.ref).contains txr = false) :
    ∀ outcome : GatewayOutcome,
      (initiate_payment st code uid txr outcome).store.transactions
          = st.transactions ++
            [⟨txr, cart.id, cartAmount st cart.id + 400, "NGN", "pending", some uid⟩] ∧
      (initiate_payment st code uid txr outcome).store.carts = st.carts ∧
      (initiate_payment st code uid txr outcome).payload
          = some ⟨txr, cartAmount st cart.id + 400, "NGN"⟩ := by
  intro outcome
  have hfresh' : ¬∃ a ∈ st.transactions, a.ref = txr := by simpa using hfresh
  cases outcome <;> refine ⟨?_, ?_, ?_⟩ <;> simp [initiate_payment, hc, hfresh']

/-- Witness for C6 on `wStore`: 2 × 1000-cent item plus tax gives a
2400-cent pending transaction under every gateway outcome. -/
theorem C6_witness :
    (initiate_payment wStore "abc" 5 "tx-9" (.netError "boom")).store.transactions
        = wStore.transactions ++
          [⟨"tx-9", wCart.id, cartAmount wStore wCart.id + 400, "NGN", "pending", some 5⟩] ∧
    (initiate_payment wStore "abc" 5 "tx-9" (.netError "boom")).store.carts = wStore.carts ∧
    (initiate_payment wStore "abc" 5 "tx-9" (.netError "boom")).payload
        = some ⟨"tx-9", cartAmount wStore wCart.id + 400, "NGN"⟩ :=
  C6_initiate_creates_pending wStore "abc" 5 "tx-9" wCart (by decide) (by decide)
    (.netError "boom")

/-- C6 counterexample: in a store whose only cart under the code is PAID,
the claim's "loads the unpaid cart" fails — `initiate_payment`
nevertheless proceeds and creates a pending transaction attached to the
paid cart. -/
theorem C6_counterexample :
    (⟨[], [], [⟨1, "abc", none, true⟩], [], [], [], 1, 1, 2, 1, 1⟩ : Store).carts.all
        (fun c => c.paid) = true ∧
    (initiate_payment (⟨[], [], [⟨1, "abc", none, true⟩], [], [], [], 1, 1, 2, 1, 1⟩ : Store)
        "abc" 7 "tx-9" (.httpResp 200)).store.transactions
      = [⟨"tx-9", 1, 400, "NGN", "pending", some 7⟩] ∧
    (initiate_payment (⟨[], [], [⟨1, "abc", none, true⟩], [], [], [], 1, 1, 2, 1, 1⟩ : Store)
        "abc" 7 "tx-9" (.httpResp 200)).resp = .ok (200, "gateway body") :=
  ⟨by decide, by decide, rfl⟩

/-- C7 (code bug): with an absent cart the existence check answers the
`{'error': ...}` body produced by the broad exception handler — the
`Http404` raised by `get_object_or_404` is not matched by the dead
`DoesNotExist` clauses — instead of the claimed `product_exists: false`;
with both rows present it does answer the existence boolean. -/
theorem C7_absent_cart_error :
    product_in_cart emptyStore "abc" 1
        = .errorResp "No Cart matches the given query." ∧
    product_in_cart emptyStore "abc" 1 ≠ .productExists false ∧
    product_in_cart wStore "abc" 1 = .productExists true := by decide

/-- A failed validation is keyed by the field of the first failing check. -/
theorem validate_error_field (users : List User) (vp : String → Option String)
    (d : RegData) (f m : String) (h : validate users vp d = .error (f, m)) :
    f = "password" ∨ f = "username" ∨ f = "email" := by
  unfold validate at h
  split at h
  · simp only [Except.error.injEq, Prod.mk.injEq] at h
    exact .inl h.1.symm
  · split at h
    · simp only [Except.error.injEq, Prod.mk.injEq] at h
      exact .inr (.inl h.1.symm)
    · split at h
      · simp only [Except.error.injEq, Prod.mk.injEq] at h
        exact .inr (.inr h.1.symm)
      · split at h
        · simp only [Except.error.injEq, Prod.mk.injEq] at h
          exact .inl h.1.symm
        · exact absurd h (by simp)

/-- A successful validation means all four checks passed. -/
theorem validate_ok (users : List User) (vp : String → Option String)
    (d d' : RegData) (h : validate users vp d = .ok d') :
    d.password = d.password2 ∧
    users.any (fun u => u.username == d.username) = false ∧
    users.any (fun u => u.email == d.email) = false ∧
    vp d.password = none := by
  unfold validate at h
  split at h
  · exact absurd h (by simp)
  · next hpw =>
    split at h
    · exact absurd h (by simp)
    · next huser =>
      split at h
      · exact absurd h (by simp)
      · next hemail =>
        split at h
        · exact absurd h (by simp)
        · next hvp =>
          exact ⟨not_ne_iff.mp hpw, Bool.not_eq_true _ ▸ huser,
            Bool.not_eq_true _ ▸ hemail, hvp⟩

/-- C8: every registration request failing validation for any reason
(password mismatch, username taken, email taken, or a password rejected by
the strength policy) is answered with a 400 carrying a field-scoped error
and creates no user row — the store is returned unchanged, with no partial
writes. -/
theorem C8_registration_failure_no_writes (st : Store)
    (vp : String → Option String) (hash : String → String) (d : RegData)
    (h : d.password ≠ d.password2 ∨
         st.users.any (fun u => u.username == d.username) = true ∨
         st.users.any (fun u => u.email == d.email) = true ∨
         vp d.password ≠ none) :
    (register_user st vp hash d).store = st ∧
    (register_user st vp hash d).httpStatus = 400 ∧
    ∃ f m, (register_user st vp hash d).resp = .error (f, m) ∧
      (f = "password" ∨ f = "username" ∨ f = "email") := by
  rcases hv : validate st.users vp d with e | d'
  · rcases e with ⟨f, m⟩
    refine ⟨?_, ?_, f, m, ?_, validate_error_field st.users vp d f m hv⟩ <;>
      simp [register_user, hv]
  · exfalso
    obtain ⟨h1, h2, h3, h4⟩ := validate_ok st.users vp d d' hv
    rcases h with h | h | h | h
    · exact h h1
    · exact absurd (h2 ▸ h) (by decide)
    · exact absurd (h3 ▸ h) (by decide)
    · exact h h4

def wRegData : RegData :=
  ⟨"alice", "alice@example.com", "A", "L", "pw1", "pw2", "", "", "", ""⟩

/-- Witness for C8: a concrete registration with mismatched password
confirmation leaves the empty user store empty. -/
theorem C8_witness :
    (register_user emptyStore (fun _ => none) (fun s => s) wRegData).store = emptyStore ∧
    (register_user emptyStore (fun _ => none) (fun s => s) wRegData).httpStatus = 400 ∧
    ∃ f m, (register_user emptyStore (fun _ => none) (fun s => s) wRegData).resp
        = .error (f, m) ∧
      (f = "password" ∨ f = "username" ∨ f = "email") :=
  C8_registration_failure_no_writes emptyStore (fun _ => none) (fun s => s)
    wRegData (.inl (by decide))

/-- Items after `add_item` are old rows or rows with quantity 1. -/
theorem add_item_cartItems (st : Store) (code : String) (pid : Nat) :
    ∀ j ∈ (add_item st code pid).1.cartItems,
      j ∈ st.cartItems ∨ j.quantity = 1 := by
  have hg := getOrCreateCart_cartItems st code
  unfold add_item
  split
  · exact fun j hj => .inl hj
  · rcases hgc : getOrCreateCart st code with ⟨st1, cart⟩
    rw [hgc] at hg
    simp only [hgc]
    split
    · next it hfind =>
      intro j hj
      rcases List.mem_map.mp hj with ⟨x, hx, hfx⟩
      by_cases hid : x.id = it.id
      · rw [if_pos hid] at hfx
        right
        rw [← hfx]
      · rw [if_neg hid] at hfx
        left
        rw [hg] at hx
        exact hfx ▸ hx
    · intro j hj
      simp only [List.mem_append, List.mem_singleton] at hj
      rcases hj with hj | rfl
      · left
        rw [hg] at hj
        exact hj
      · right
        rfl

/-- Items after `update_quantity` are old rows or rows with the supplied
quantity. -/
theorem update_quantity_cartItems (st : Store) (iid : Nat) (q : Int) :
    ∀ j ∈ (update_quantity st iid q).1.cartItems,
      j ∈ st.cartItems ∨ j.quantity = q := by
  unfold update_quantity
  split
  · exact fun j hj => .inl hj
  · intro j hj
    rcases List.mem_map.mp hj with ⟨x, hx, hfx⟩
    by_cases hid : x.id = iid
    · rw [if_pos hid] at hfx
      right
      rw [← hfx]
    · rw [if_neg hid] at hfx
      exact .inl (hfx ▸ hx)

/-- The operation `delete_item` only removes rows. -/
theorem delete_item_cartItems (st : Store) (iid : Nat) :
    ∀ j ∈ (delete_item st iid).1.cartItems, j ∈ st.cartItems := by
  unfold delete_item
  split
  · exact fun j hj => hj
  · exact fun j hj => List.mem_of_mem_filter hj

/-- The invariant claimed by C9: every persisted CartItem has
quantity ≥ 1. -/
def quantityInv (st : Store) : Prop :=
  ∀ it ∈ st.cartItems, 1 ≤ it.quantity

instance : DecidablePred quantityInv :=
  fun st => List.decidableBAll _ st.cartItems

/-- C9 counterexample: from a valid store, `add_item` followed by
`update_quantity` with quantity 0 persists a CartItem with quantity 0 —
`update_quantity` enforces no lower bound. -/
theorem C9_counterexample :
    (update_quantity (add_item
        (⟨[wCategory], [wProduct], [], [], [], [], 2, 2, 1, 1, 1⟩ : Store) "abc" 1).1
        1 0).1.cartItems = [⟨1, 1, 1, 0⟩] ∧
    ¬ quantityInv (update_quantity (add_item
        (⟨[wCategory], [wProduct], [], [], [], [], 2, 2, 1, 1, 1⟩ : Store) "abc" 1).1
        1 0).1 := by decide

/-- C9 amended: `add_item` and `delete_item` preserve the quantity ≥ 1
invariant unconditionally, and `update_quantity` preserves it exactly when
the client-supplied quantity is at least 1; an update below 1 is the one
way to break it. -/
theorem C9_quantity_invariant (st : Store) (hinv : quantityInv st) :
    (∀ code pid, quantityInv (add_item st code pid).1) ∧
    (∀ iid q, 1 ≤ q → quantityInv (update_quantity st iid q).1) ∧
    (∀ iid, quantityInv (delete_item st iid).1) := by
  refine ⟨?_, ?_, ?_⟩
  · intro code pid j hj
    rcases add_item_cartItems st code pid j hj with h | h
    · exact hinv j h
    · rw [h]
  · intro iid q hq j hj
    rcases update_quantity_cartItems st iid q j hj with h | h
    · exact hinv j h
    · rw [h]
      exact hq
  · intro iid j hj
    exact hinv j (delete_item_cartItems st iid j hj)

/-- Witness for C9 on `wStore`. -/
theorem C9_witness :
    (∀ code pid, quantityInv (add_item wStore code pid).1) ∧
    (∀ iid q, 1 ≤ q → quantityInv (update_quantity wStore iid q).1) ∧
    (∀ iid, quantityInv (delete_item wStore iid).1) :=
  C9_quantity_invariant wStore (by decide)

/-- C10: `add_item` resolves the cart by `cart_code` alone — even when the
stored cart is already paid, the CartItem is attached to that very cart,
with quantity 1, and no second cart is ever created for the code. -/
theorem C10_add_item_uses_paid_cart (st : Store) (code : String) (pid : Nat)
    (cart : Cart) (product : Product)
    (hc : st.carts.find? (fun c => c.cart_code == code) = some cart)
    (_hpaid : cart.paid = true)
    (hp : st.products.find? (fun p => p.id == pid) = some product) :
    (add_item st code pid).1.carts = st.carts ∧
    ∃ it : CartItem, (add_item st code pid).2 = some it ∧
      it.cartId = cart.id ∧ it.productId = product.id ∧ it.quantity = 1 ∧
      it ∈ (add_item st code pid).1.cartItems := by
  have hgc : getOrCreateCart st code = (st, cart) := by
    unfold getOrCreateCart
    rw [hc]
  unfold add_item
  simp only [hp, hgc]
  cases hi : st.cartItems.find?
      (fun it => it.cartId == cart.id && it.productId == product.id) with
  | some it =>
    have hprop := List.find?_some hi
    simp only [Bool.and_eq_true, beq_iff_eq] at hprop
    have hmem := List.mem_of_find?_eq_some hi
    exact ⟨rfl, ⟨it.id, it.cartId, it.productId, 1⟩, rfl, hprop.1, hprop.2, rfl,
      List.mem_map.mpr ⟨it, hmem, by simp⟩⟩
  | none =>
    exact ⟨rfl, ⟨st.nextCartItemId, cart.id, product.id, 1⟩, rfl, rfl, rfl, rfl,
      by simp⟩

def wPaidStore : Store :=
  ⟨[wCategory], [wProduct], [⟨1, "abc", none, true⟩], [wItem], [wTxn], [],
   2, 2, 2, 2, 1⟩

/-- Witness for C10: adding to the code of an already-paid cart mutates
that paid cart's contents. -/
theorem C10_witness :
    (add_item wPaidStore "abc" 1).1.carts = wPaidStore.carts ∧
    ∃ it : CartItem, (add_item wPaidStore "abc" 1).2 = some it ∧
      it.cartId = (⟨1, "abc", none, true⟩ : Cart).id ∧
      it.productId = wProduct.id ∧ it.quantity = 1 ∧
      it ∈ (add_item wPaidStore "abc" 1).1.cartItems :=
  C10_add_item_uses_paid_cart wPaidStore "abc" 1 ⟨1, "abc", none, true⟩ wProduct
    (by decide) (by decide) (by decide)

end VioletteStores
